import Mathlib

/-!
Shallow embedding of the "Warung Madura" online-pharmacy storefront
(React + Supabase client).  The durable state owned by the backend
(tables products / carts / cart_items / orders / order_items, from
supabase/migrations/20251106004102_*.sql) is modelled as lists of rows,
and each UI handler that issues remote writes is translated to a pure
state-transformer over that database value.  Remote calls that can raise
an exception are modelled by a failure oracle `fails : Nat → Bool`
indexed by the position of the call inside the handler; a call whose
index is marked true raises, which in the source aborts the remaining
awaits of the surrounding try-block (caught by the catch) without
rolling anything back.

Numeric columns (DECIMAL price/total/subtotal, INTEGER stock/quantity)
are modelled as `Int`; row ids (UUIDs) as `Nat`; timestamps as epoch
milliseconds (`Nat`).
-/

namespace WarungApotek

/-! ### String helpers

The source relies on JavaScript string builtins; they are re-implemented
here over `List Char` so that every definition evaluates inside the
kernel.  -/

/-- ASCII whitespace recognised by JavaScript `String.prototype.trim`
(the non-ASCII whitespace code points are not modelled). -/
def isJsWhitespace (c : Char) : Bool :=
  c == ' ' || c == '\t' || c == '\n' || c == '\r'

/-- Model of JavaScript `String.prototype.trim`: drop leading and
trailing whitespace. -/
def jsTrim (s : String) : String :=
  (((s.toList.dropWhile isJsWhitespace).reverse.dropWhile isJsWhitespace).reverse).asString

/-- Lower-cased character list of a string (ASCII case folding). -/
def lowerChars (s : String) : List Char :=
  s.toList.map Char.toLower

/-- `startsWithPat pat s` holds when `pat` is an initial segment of `s`. -/
def startsWithPat : List Char → List Char → Bool
  | [], _ => true
  | _ :: _, [] => false
  | a :: as, b :: bs => a == b && startsWithPat as bs

/-- `hasSubPat pat s` holds when `pat` occurs contiguously inside `s`. -/
def hasSubPat (pat : List Char) : List Char → Bool
  | [] => pat.isEmpty
  | c :: cs => startsWithPat pat (c :: cs) || hasSubPat pat cs

/-- Model of the PostgREST `ilike("name", %q%)` filter of Index.tsx:
case-insensitive substring containment of the search text in the name
(SQL wildcard characters inside the search text are not modelled). -/
def iLike (name q : String) : Bool :=
  hasSubPat (lowerChars q) (lowerChars name)

/-- Code-point comparison of character lists, lexicographic.  Models the
backend's `ORDER BY name ASC` text ordering. -/
def charListLe : List Char → List Char → Bool
  | [], _ => true
  | _ :: _, [] => false
  | a :: as, b :: bs =>
      if a.toNat < b.toNat then true
      else if b.toNat < a.toNat then false
      else charListLe as bs

/-- Insert a thousands dot before every third digit, on a reversed digit
list (`k` counts digits already emitted). -/
def dotEvery3 : Nat → List Char → List Char
  | _, [] => []
  | k, c :: cs =>
      if k ≠ 0 ∧ k % 3 = 0 then '.' :: c :: dotEvery3 (k + 1) cs
      else c :: dotEvery3 (k + 1) cs

/-- Model of `formatPrice` (Intl.NumberFormat "id-ID", currency IDR,
minimumFractionDigits 0), shared verbatim by every page of the app:
"Rp" followed by the dot-grouped integer amount. -/
def formatPrice (n : Int) : String :=
  (if n < 0 then "-" else "") ++ "Rp" ++
    ((dotEvery3 0 (toString n.natAbs).toList.reverse).reverse).asString

/-- Model of `new Date(ms).toLocaleDateString("id-ID")` on an epoch-
millisecond timestamp: day/month/year in the proleptic Gregorian
calendar, UTC (days-from-epoch inversion). -/
def formatDateID (ms : Nat) : String :=
  let z := ms / 86400000 + 719468
  let era := z / 146097
  let doe := z % 146097
  let yoe := (doe - doe / 1460 + doe / 36524 - doe / 146096) / 365
  let y0 := yoe + era * 400
  let doy := doe - (365 * yoe + yoe / 4 - yoe / 100)
  let mp := (5 * doy + 2) / 153
  let d := doy - (153 * mp + 2) / 5 + 1
  let m := if mp < 10 then mp + 3 else mp - 9
  let y := if m ≤ 2 then y0 + 1 else y0
  toString d ++ "/" ++ toString m ++ "/" ++ toString y

/-! ### Data model (tables of the migration) -/

/-- Row of `public.products`.  The DB-generated timestamp columns and the
warehouse columns added by the second migration are not read by any of
the handlers modelled here and are omitted. -/
structure Product where
  id : Nat
  name : String
  slug : String
  price : Int
  stock : Int
  category_id : Option Nat
  is_popular : Bool
deriving Repr, DecidableEq

/-- Row of `public.carts` (`UNIQUE(user_id)`). -/
structure Cart where
  id : Nat
  user_id : Nat
deriving Repr, DecidableEq

/-- Row of `public.cart_items` (`UNIQUE(cart_id, product_id)`). -/
structure CartItem where
  id : Nat
  cart_id : Nat
  product_id : Nat
  quantity : Int
deriving Repr, DecidableEq

/-- Row of `public.orders`.  `updated_at` is maintained by the
`update_orders_updated_at` trigger (`update_updated_at_column`), which
sets it to `now()` on every UPDATE of the row. -/
structure Order where
  id : Nat
  user_id : Nat
  order_number : String
  total_amount : Int
  status : String
  payment_method : String
  shipping_address : String
  created_at : Nat
  updated_at : Nat
deriving Repr, DecidableEq

/-- Row of `public.order_items` (the DB-generated id column is not read
anywhere and is omitted). -/
structure OrderItem where
  order_id : Nat
  product_id : Option Nat
  product_name : String
  product_price : Int
  quantity : Int
  subtotal : Int
deriving Repr, DecidableEq

/-- The durable state owned by the backend. -/
structure DB where
  products : List Product
  carts : List Cart
  cartItems : List CartItem
  orders : List Order
  orderItems : List OrderItem
deriving Repr, DecidableEq

/-- A fresh row id: one more than every id in use. -/
def freshId (l : List Nat) : Nat := l.foldr max 0 + 1

/-! ### Checkout sequencer (src/pages/Cart.tsx, `handleCheckout`)

The client works on the joined rows fetched by `fetchCart`
(`cart_items` joined with `products (id, name, price, stock)`); that
client-side view is the `CartItem` interface of Cart.tsx. -/

/-- The `CartItem` interface of Cart.tsx: a cart line joined with the
product fields the page selects. -/
structure CartItemView where
  id : Nat
  quantity : Int
  productId : Nat
  productName : String
  productPrice : Int
  productStock : Int
deriving Repr, DecidableEq

/-- `calculateTotal` of Cart.tsx: reduce over the cart lines of
`price * quantity`, starting from 0. -/
def calculateTotal (items : List CartItemView) : Int :=
  items.foldl (fun total item => total + item.productPrice * item.quantity) 0

/-- `supabase.from("products").update(stock := newStock).eq("id", pid)`:
set the stock of every product row whose id equals `pid`. -/
def updateProductStock (db : DB) (pid : Nat) (newStock : Int) : DB :=
  { db with
    products := db.products.map fun p =>
      if p.id = pid then { p with stock := newStock } else p }

/-- The per-item stock-update loop of `handleCheckout` (step 3).  The
`k`-th iteration is remote call number `k`; a call marked by `fails`
raises, aborting the rest of the loop (`true` in the result signals the
raised exception, which the source's catch-block absorbs). -/
def stockUpdateLoop (fails : Nat → Bool) : Nat → List CartItemView → DB → DB × Bool
  | _, [], db => (db, false)
  | k, item :: rest, db =>
      if fails k then (db, true)
      else
        stockUpdateLoop fails (k + 1) rest
          (updateProductStock db item.productId (item.productStock - item.quantity))

/-- The order-item row built for one cart line in `handleCheckout`
(step 2): a snapshot of the joined product name/price, with
`subtotal = price * quantity`. -/
def mkOrderItem (orderId : Nat) (item : CartItemView) : OrderItem :=
  { order_id := orderId
    product_id := some item.productId
    product_name := item.productName
    product_price := item.productPrice
    quantity := item.quantity
    subtotal := item.productPrice * item.quantity }

/-- Steps 3 and 4 of `handleCheckout`: run the stock-decrement loop
and, when no call of the loop raised, issue the cart-items delete
(`delete().eq("cart_id", cartId)`), itself subject to the failure
oracle at index 2 + number of lines. -/
def checkoutSteps34 (fails : Nat → Bool) (cid : Nat) (items : List CartItemView)
    (db2 : DB) : DB :=
  match stockUpdateLoop fails 2 items db2 with
  | (db3, true) => db3
  | (db3, false) =>
      if fails (2 + items.length) then db3
      else { db3 with cartItems := db3.cartItems.filter fun ci => ¬ ci.cart_id = cid }

/-- The Order row inserted by `handleCheckout` (step 1): a fresh id,
the time-based order number `WM` + `Date.now()`, the client-computed
total, status "pending" and the hard-coded payment method "cash".  The
row-creation timestamps come from the insert time. -/
def checkoutOrder (uid : Nat) (items : List CartItemView) (shippingAddress : String)
    (now : Nat) (db : DB) : Order :=
  { id := freshId (db.orders.map Order.id)
    user_id := uid
    order_number := "WM" ++ toString now
    total_amount := calculateTotal items
    status := "pending"
    payment_method := "cash"
    shipping_address := shippingAddress
    created_at := now
    updated_at := now }

/-- `handleCheckout` of Cart.tsx.  `user`/`cartId` are the component
state (`null` when absent), `items` the fetched cart view, `now` the
value of `Date.now()`, and `fails` the failure oracle for the remote
calls, numbered 0 (order insert), 1 (order-items insert), 2 … 2+n-1
(the per-item stock updates), 2+n (cart-items delete).  A raised call
jumps to the catch-block: no further write happens and nothing already
written is undone. -/
def handleCheckout (fails : Nat → Bool) (user : Option Nat) (cartId : Option Nat)
    (items : List CartItemView) (shippingAddress : String) (now : Nat) (db : DB) : DB :=
  match user, cartId with
  | some uid, some cid =>
    if items.length = 0 then db
    else if jsTrim shippingAddress = "" then db
    else if fails 0 then db
    else
      let order := checkoutOrder uid items shippingAddress now db
      let oid := order.id
      let db1 := { db with orders := db.orders ++ [order] }
      if fails 1 then db1
      else
        let db2 := { db1 with orderItems := db1.orderItems ++ items.map (mkOrderItem oid) }
        checkoutSteps34 fails cid items db2
  | _, _ => db

/-! ### Catalog reader (src/pages/Index.tsx, `fetchProducts`) -/

/-- The filter built by `fetchProducts`: `gt("stock", 0)`, then
`eq("category_id", c)` when a category is selected, then
`ilike("name", %q%)` when the search text is non-empty (the empty
string is falsy in the source's `if (searchQuery)`). -/
def productFilter (q : String) (c : Option Nat) (p : Product) : Bool :=
  decide (0 < p.stock) &&
    (match c with
     | some cid => decide (p.category_id = some cid)
     | none => true) &&
    (if q = "" then true else iLike p.name q)

/-- The sort key of `fetchProducts`:
`order("is_popular", descending).order("name")` — popular rows first,
ties broken by name ascending. -/
def productLeB (a b : Product) : Bool :=
  match a.is_popular, b.is_popular with
  | true, false => true
  | false, true => false
  | _, _ => charListLe a.name.toList b.name.toList

/-- `productLeB` as a decidable relation, for `List.insertionSort`. -/
def productLe (a b : Product) : Prop := productLeB a b = true

instance : DecidableRel productLe := fun a b => instDecidableEqBool (productLeB a b) true

/-- `fetchProducts` of Index.tsx: a pure read returning the filtered,
sorted product rows; the backend state is untouched. -/
def fetchProducts (q : String) (c : Option Nat) (db : DB) : List Product × DB :=
  (((db.products.filter (productFilter q c)).insertionSort productLe), db)

/-! ### Cart manager (src/pages/Cart.tsx, `updateQuantity`) -/

/-- `updateQuantity` of Cart.tsx: reject requests below 1 before issuing
any write; otherwise set the quantity of the row whose id matches. -/
def updateQuantity (itemId : Nat) (newQuantity : Int) (db : DB) : DB :=
  if newQuantity < 1 then db
  else
    { db with
      cartItems := db.cartItems.map fun ci =>
        if ci.id = itemId then { ci with quantity := newQuantity } else ci }

/-! ### Admin console (src/pages/Admin.tsx, `updateOrderStatus`) -/

/-- The six values offered by the status selector of Admin.tsx. -/
def orderStatuses : List String :=
  ["pending", "paid", "processing", "shipped", "completed", "cancelled"]

/-- `updateOrderStatus` of Admin.tsx:
`from("orders").update(status).eq("id", orderId)`.  The
`update_orders_updated_at` trigger of the migration fires on the update
and sets `updated_at` to `now()` (modelled by the `now` argument); no
check relates the new status to the old one. -/
def updateOrderStatus (orderId : Nat) (status : String) (now : Nat) (db : DB) : DB :=
  { db with
    orders := db.orders.map fun o =>
      if o.id = orderId then { o with status := status, updated_at := now } else o }

/-! ### Add to cart (src/pages/ProductDetail.tsx, `addToCart`) -/

/-- The cart id `addToCart` works with: the user's existing cart row
(`from("carts").select("id").eq("user_id", uid).single()`, unique by
the `UNIQUE(user_id)` constraint), or the id of the freshly inserted
cart when none exists. -/
def cartIdFor (db : DB) (uid : Nat) : Nat :=
  match db.carts.find? (fun c => decide (c.user_id = uid)) with
  | some c => c.id
  | none => freshId (db.carts.map Cart.id)

/-- The carts table after the get-or-create step of `addToCart`. -/
def cartsAfterEnsure (db : DB) (uid : Nat) : List Cart :=
  match db.carts.find? (fun c => decide (c.user_id = uid)) with
  | some _ => db.carts
  | none => db.carts ++ [{ id := freshId (db.carts.map Cart.id), user_id := uid }]

/-- `addToCart` of ProductDetail.tsx: get or create the user's cart,
look up an existing line for the product
(`eq("cart_id", …).eq("product_id", …).single()`), and either add the
requested quantity to it or insert a fresh line. -/
def addToCart (user : Option Nat) (product : Option Product) (quantity : Int) (db : DB) : DB :=
  match user, product with
  | some uid, some prod =>
      let cid := cartIdFor db uid
      let db1 := { db with carts := cartsAfterEnsure db uid }
      match db1.cartItems.find?
          (fun ci => decide (ci.cart_id = cid) && decide (ci.product_id = prod.id)) with
      | some existingItem =>
          { db1 with
            cartItems := db1.cartItems.map fun ci =>
              if ci.id = existingItem.id then
                { ci with quantity := existingItem.quantity + quantity }
              else ci }
      | none =>
          { db1 with
            cartItems := db1.cartItems ++
              [{ id := freshId (db1.cartItems.map CartItem.id)
                 cart_id := cid
                 product_id := prod.id
                 quantity := quantity }] }
  | _, _ => db

/-! ### Order history / invoice (src/pages/Orders.tsx, `downloadInvoice`) -/

/-- An entry of `order_items` as selected by the `Order` interface of
Orders.tsx. -/
structure InvoiceItem where
  product_name : String
  product_price : Int
  quantity : Int
  subtotal : Int
deriving Repr, DecidableEq

/-- The `Order` interface of Orders.tsx: an already-fetched order row
with its nested line items. -/
structure OrderView where
  id : Nat
  order_number : String
  total_amount : Int
  status : String
  shipping_address : String
  created_at : Nat
  order_items : List InvoiceItem
deriving Repr, DecidableEq

/-- `getStatusText` of Orders.tsx: the Indonesian label of a status,
falling back to the raw status string. -/
def getStatusText (status : String) : String :=
  if status = "pending" then "Menunggu Pembayaran"
  else if status = "paid" then "Dibayar"
  else if status = "processing" then "Diproses"
  else if status = "shipped" then "Dikirim"
  else if status = "completed" then "Selesai"
  else if status = "cancelled" then "Dibatalkan"
  else status

/-- One entry of the ITEM PESANAN block: the arrow body inside
`order.order_items.map((item, index) => …)` of `downloadInvoice`. -/
def invoiceItemLine (idx : Nat) (item : InvoiceItem) : String :=
  "\n" ++ toString (idx + 1) ++ ". " ++ item.product_name ++
    "\n   " ++ toString item.quantity ++ " x " ++ formatPrice item.product_price ++
    " = " ++ formatPrice item.subtotal ++ "\n"

/-- The `invoiceContent` template literal of `downloadInvoice`,
transcribed line by line, with the final `.trim()`. -/
def invoiceContent (o : OrderView) : String :=
  jsTrim <|
    "\n=================================\n" ++
    "      WARUNG MADURA\n" ++
    "   Apotek Online Terpercaya\n" ++
    "=================================\n" ++
    "Invoice: " ++ o.order_number ++ "\n" ++
    "Tanggal: " ++ formatDateID o.created_at ++ "\n" ++
    "---------------------------------\n\n" ++
    "ITEM PESANAN:\n" ++
    String.join (o.order_items.enum.map fun e => invoiceItemLine e.1 e.2) ++
    "\n\n---------------------------------\n" ++
    "TOTAL: " ++ formatPrice o.total_amount ++ "\n" ++
    "---------------------------------\n\n" ++
    "Alamat Pengiriman:\n" ++ o.shipping_address ++ "\n\n" ++
    "Status: " ++ getStatusText o.status ++ "\n\n" ++
    "Terima kasih telah berbelanja\n" ++
    "di Warung Madura!\n" ++
    "=================================\n    "

/-- The observable outcome of one `downloadInvoice` invocation: the
text handed to the Blob (the anchor-click download of that Blob is the
only further effect in the source) and the list of backend requests the
invocation issued. -/
structure InvoiceRun where
  text : String
  serverCalls : List String
deriving Repr, DecidableEq

/-- `downloadInvoice` of Orders.tsx, over the already-fetched order
record.  `now` is the ambient clock and `db` the backend state at the
time of the call; the body reads neither. -/
def downloadInvoice (o : OrderView) (now : Nat) (db : DB) : InvoiceRun × DB :=
  ({ text := invoiceContent o, serverCalls := [] }, db)

/-! ### Verification-side helper functions -/

/-- One iteration of the stock-decrement loop (step 3 of
`handleCheckout`) seen from a single product row: the row is rewritten
to the snapshot stock minus the purchased quantity when its id matches
the cart line. -/
def stockStep (p : Product) (item : CartItemView) : Product :=
  if p.id = item.productId then { p with stock := item.productStock - item.quantity } else p

/-- Cumulative effect of the stock-decrement loop on one product row. -/
def applyStock (items : List CartItemView) (p : Product) : Product :=
  items.foldl stockStep p

/-- Two cart rows do not collide on the `UNIQUE(cart_id, product_id)`
key of `cart_items`. -/
def distinctPair (a b : CartItem) : Prop :=
  ¬ (a.cart_id = b.cart_id ∧ a.product_id = b.product_id)

instance : DecidableRel distinctPair := fun a b =>
  inferInstanceAs (Decidable (¬ (a.cart_id = b.cart_id ∧ a.product_id = b.product_id)))

/-! ### Concrete rows (the sample data of the migration), used to
instantiate the theorems on closed inputs -/

def pParacetamol : Product :=
  { id := 10, name := "Paracetamol 500mg", slug := "paracetamol-500mg", price := 8000,
    stock := 120, category_id := some 5, is_popular := false }

def pObh : Product :=
  { id := 11, name := "OBH Combi Batuk Flu", slug := "obh-combi-batuk-flu", price := 25000,
    stock := 100, category_id := some 4, is_popular := true }

def demoOrder : Order :=
  { id := 1, user_id := 7, order_number := "WM900", total_amount := 16000,
    status := "pending", payment_method := "cash", shipping_address := "Jl. Merdeka 1",
    created_at := 900, updated_at := 900 }

/-- A small backend state: two products, user 7's cart holding both,
one past order. -/
def demoDB : DB :=
  { products := [pParacetamol, pObh]
    carts := [{ id := 1, user_id := 7 }]
    cartItems := [{ id := 3, cart_id := 1, product_id := 10, quantity := 2 },
                  { id := 4, cart_id := 1, product_id := 11, quantity := 1 }]
    orders := [demoOrder]
    orderItems := [] }

/-- The client-side joined view of `demoDB`'s cart, as `fetchCart`
produces it. -/
def demoItems : List CartItemView :=
  [{ id := 3, quantity := 2, productId := 10, productName := "Paracetamol 500mg",
     productPrice := 8000, productStock := 120 },
   { id := 4, quantity := 1, productId := 11, productName := "OBH Combi Batuk Flu",
     productPrice := 25000, productStock := 100 }]

/-- An order view for the invoice theorems. -/
def demoOrderView : OrderView :=
  { id := 1, order_number := "WM900", total_amount := 16000, status := "pending",
    shipping_address := "Jl. Merdeka 1", created_at := 1730854862000,
    order_items := [{ product_name := "Paracetamol 500mg", product_price := 8000,
                      quantity := 2, subtotal := 16000 }] }

/-! ## Supporting lemmas -/

/-- Decompose a `charListLe` fact on two cons cells. -/
theorem charListLe_head_cases {a b : Char} {as bs : List Char}
    (h : charListLe (a :: as) (b :: bs) = true) :
    a.toNat < b.toNat ∨ (a.toNat = b.toNat ∧ charListLe as bs = true) := by
  by_cases h1 : a.toNat < b.toNat
  · exact Or.inl h1
  · by_cases h2 : b.toNat < a.toNat
    · simp [charListLe, h1, h2] at h
    · exact Or.inr ⟨by omega, by simpa [charListLe, h1, h2] using h⟩

theorem charListLe_total : ∀ as bs : List Char,
    charListLe as bs = true ∨ charListLe bs as = true
  | [], _ => Or.inl rfl
  | _ :: _, [] => Or.inr rfl
  | a :: as, b :: bs => by
      by_cases h1 : a.toNat < b.toNat
      · exact Or.inl (by simp [charListLe, h1])
      · by_cases h2 : b.toNat < a.toNat
        · exact Or.inr (by simp [charListLe, h2, show ¬ b.toNat < a.toNat → False from fun k => k h2])
        · rcases charListLe_total as bs with h | h
          · exact Or.inl (by simp [charListLe, h1, h2, h])
          · exact Or.inr (by simp [charListLe, h1, h2, h])

theorem charListLe_trans : ∀ as bs cs : List Char,
    charListLe as bs = true → charListLe bs cs = true → charListLe as cs = true
  | [], _, _, _, _ => rfl
  | _ :: _, [], _, h, _ => by simp [charListLe] at h
  | _ :: _, _ :: _, [], _, h => by simp [charListLe] at h
  | a :: as, b :: bs, c :: cs, h1, h2 => by
      rcases charListLe_head_cases h1 with hab | ⟨hab, h1'⟩ <;>
        rcases charListLe_head_cases h2 with hbc | ⟨hbc, h2'⟩
      · simp [charListLe, show a.toNat < c.toNat from by omega]
      · simp [charListLe, show a.toNat < c.toNat from by omega]
      · simp [charListLe, show a.toNat < c.toNat from by omega]
      · simp [charListLe, show ¬ a.toNat < c.toNat from by omega,
          show ¬ c.toNat < a.toNat from by omega]
        exact charListLe_trans as bs cs h1' h2'

theorem productLe_total (a b : Product) : productLe a b ∨ productLe b a := by
  obtain ⟨_, _, _, _, _, _, apop⟩ := a
  obtain ⟨_, _, _, _, _, _, bpop⟩ := b
  unfold productLe productLeB
  cases apop <;> cases bpop
  · exact charListLe_total _ _
  · exact Or.inr rfl
  · exact Or.inl rfl
  · exact charListLe_total _ _

theorem productLe_trans (a b c : Product) (h1 : productLe a b) (h2 : productLe b c) :
    productLe a c := by
  obtain ⟨_, _, _, _, _, _, apop⟩ := a
  obtain ⟨_, _, _, _, _, _, bpop⟩ := b
  obtain ⟨_, _, _, _, _, _, cpop⟩ := c
  unfold productLe productLeB at h1 h2 ⊢
  cases apop <;> cases bpop <;> cases cpop <;> simp_all <;>
    exact charListLe_trans _ _ _ h1 h2

instance : IsTotal Product productLe := ⟨productLe_total⟩

instance : IsTrans Product productLe := ⟨productLe_trans⟩

theorem foldl_add_map (items : List CartItemView) (a : Int) :
    items.foldl (fun total item => total + item.productPrice * item.quantity) a =
      a + (items.map fun item => item.productPrice * item.quantity).sum := by
  induction items generalizing a with
  | nil => simp
  | cons it rest ih => simp [ih, List.sum_cons]; ring

/-- `calculateTotal` computes the sum over cart lines of price times
quantity. -/
theorem calculateTotal_eq_sum (items : List CartItemView) :
    calculateTotal items = (items.map fun item => item.productPrice * item.quantity).sum := by
  simpa using foldl_add_map items 0

theorem applyStock_cons (item : CartItemView) (rest : List CartItemView) (p : Product) :
    applyStock (item :: rest) p = applyStock rest (stockStep p item) := rfl

/-- A product row matched by no cart line is untouched by the stock
loop. -/
theorem applyStock_of_not_mem (items : List CartItemView) (p : Product)
    (h : ∀ it ∈ items, ¬ it.productId = p.id) : applyStock items p = p := by
  induction items with
  | nil => rfl
  | cons it rest ih =>
      have hstep : stockStep p it = p := by
        unfold stockStep
        rw [if_neg]
        intro hp
        exact h it (List.mem_cons_self _ _) hp.symm
      rw [applyStock_cons, hstep]
      exact ih fun it' hit' => h it' (List.mem_cons_of_mem _ hit')

/-- With pairwise-distinct product ids among the cart lines (the
`UNIQUE(cart_id, product_id)` key of the fetched cart), the stock loop
rewrites a product row according to the unique matching line. -/
theorem applyStock_find (items : List CartItemView) (p : Product)
    (hnd : (items.map CartItemView.productId).Nodup) :
    applyStock items p =
      match items.find? (fun it => decide (it.productId = p.id)) with
      | some it => { p with stock := it.productStock - it.quantity }
      | none => p := by
  induction items with
  | nil => rfl
  | cons it rest ih =>
      rw [List.map_cons, List.nodup_cons] at hnd
      obtain ⟨hni, hnd'⟩ := hnd
      by_cases hp : it.productId = p.id
      · rw [List.find?_cons_of_pos _ (by simpa using hp), applyStock_cons]
        have hstep : stockStep p it = { p with stock := it.productStock - it.quantity } := by
          unfold stockStep
          rw [if_pos hp.symm]
        rw [hstep]
        apply applyStock_of_not_mem
        intro it' hit' hcontra
        have hmem : it'.productId ∈ rest.map CartItemView.productId :=
          List.mem_map_of_mem _ hit'
        rw [hcontra, ← hp] at hmem
        exact hni hmem
      · rw [List.find?_cons_of_neg _ (by simpa using hp), applyStock_cons]
        have hstep : stockStep p it = p := by
          unfold stockStep
          rw [if_neg fun k => hp k.symm]
        rw [hstep]
        exact ih hnd'

theorem map_applyStock_nil (ps : List Product) : ps.map (applyStock []) = ps := by
  induction ps with
  | nil => rfl
  | cons p rest ih => simp [applyStock, ih]

/-- A failure-free run of the stock loop applies every line's update. -/
theorem stockUpdateLoop_noFail (fails : Nat → Bool) :
    ∀ (items : List CartItemView) (k : Nat) (db : DB),
    (∀ i, i < items.length → fails (k + i) = false) →
    stockUpdateLoop fails k items db =
      ({ db with products := db.products.map (applyStock items) }, false) := by
  intro items
  induction items with
  | nil =>
      intro k db _
      rw [stockUpdateLoop, map_applyStock_nil]
  | cons it rest ih =>
      intro k db h
      have h0 : fails k = false := by simpa using h 0 (Nat.succ_pos _)
      rw [stockUpdateLoop, if_neg (by simp [h0])]
      rw [ih (k + 1) _ fun i hi => by
        have h' := h (i + 1) (by simpa using Nat.succ_lt_succ hi)
        have e : k + 1 + i = k + (i + 1) := by omega
        rw [e]
        exact h']
      simp only [updateProductStock, List.map_map]
      exact congrArg (fun ps => ({ db with products := ps }, false))
        (List.map_congr_left fun a _ => rfl)

/-- A run of the stock loop whose first raising call is the one for the
line at position `j` applies exactly the updates of the first `j`
lines. -/
theorem stockUpdateLoop_failAt (fails : Nat → Bool) :
    ∀ (items : List CartItemView) (j k : Nat) (db : DB),
    j < items.length → (∀ i, i < j → fails (k + i) = false) → fails (k + j) = true →
    stockUpdateLoop fails k items db =
      ({ db with products := db.products.map (applyStock (items.take j)) }, true) := by
  intro items
  induction items with
  | nil =>
      intro j k db hj
      exact absurd hj (by simp)
  | cons it rest ih =>
      intro j k db hj hpre hfail
      cases j with
      | zero =>
          have hk : fails k = true := by simpa using hfail
          rw [stockUpdateLoop, if_pos hk, List.take_zero, map_applyStock_nil]
      | succ j =>
          have h0 : fails k = false := by simpa using hpre 0 (Nat.succ_pos _)
          rw [stockUpdateLoop, if_neg (by simp [h0])]
          rw [ih j (k + 1) _ (by simpa using hj)
            (fun i hi => by
              have h' := hpre (i + 1) (by simpa using Nat.succ_lt_succ hi)
              have e : k + 1 + i = k + (i + 1) := by omega
              rw [e]
              exact h')
            (by
              have e : k + 1 + j = k + (j + 1) := by omega
              rw [e]
              exact hfail)]
          simp only [updateProductStock, List.map_map, List.take_succ_cons]
          exact congrArg (fun ps => ({ db with products := ps }, true))
            (List.map_congr_left fun a _ => rfl)

/-- Whatever the failure oracle does, the stock loop touches only the
products table. -/
theorem stockUpdateLoop_shape (fails : Nat → Bool) :
    ∀ (items : List CartItemView) (k : Nat) (db : DB),
    ∃ ps b, stockUpdateLoop fails k items db = ({ db with products := ps }, b) := by
  intro items
  induction items with
  | nil => intro k db; exact ⟨db.products, false, rfl⟩
  | cons it rest ih =>
      intro k db
      by_cases hk : fails k = true
      · exact ⟨db.products, true, by rw [stockUpdateLoop, if_pos hk]⟩
      · obtain ⟨ps, b, hps⟩ := ih (k + 1) (updateProductStock db it.productId
          (it.productStock - it.quantity))
        refine ⟨ps, b, ?_⟩
        rw [stockUpdateLoop, if_neg hk, hps]
        rfl

/-- The closed form of a fully successful checkout: order appended,
order items appended, every line's stock update applied, and the cart's
rows deleted. -/
theorem handleCheckout_success (uid cid : Nat) (items : List CartItemView)
    (addr : String) (now : Nat) (db : DB)
    (hne : items ≠ []) (haddr : jsTrim addr ≠ "") :
    handleCheckout (fun _ => false) (some uid) (some cid) items addr now db =
      { db with
        products := db.products.map (applyStock items)
        cartItems := db.cartItems.filter fun ci => ¬ ci.cart_id = cid
        orders := db.orders ++ [checkoutOrder uid items addr now db]
        orderItems := db.orderItems ++
          items.map (mkOrderItem (checkoutOrder uid items addr now db).id) } := by
  have hlen : ¬ items.length = 0 := fun h => hne (List.length_eq_zero.mp h)
  simp only [handleCheckout, checkoutSteps34]
  rw [if_neg hlen, if_neg haddr, if_neg (by simp), stockUpdateLoop_noFail (fun _ => false)
    items 2 _ (fun i _ => rfl)]
  rfl

/-- An exception raised by the order-items insert (call 1) aborts the
rest: only the order row of step 1 is in place, nothing is undone. -/
theorem handleCheckout_fail1 (fails : Nat → Bool) (uid cid : Nat)
    (items : List CartItemView) (addr : String) (now : Nat) (db : DB)
    (hne : items ≠ []) (haddr : jsTrim addr ≠ "")
    (h0 : fails 0 = false) (h1 : fails 1 = true) :
    handleCheckout fails (some uid) (some cid) items addr now db =
      { db with orders := db.orders ++ [checkoutOrder uid items addr now db] } := by
  have hlen : ¬ items.length = 0 := fun h => hne (List.length_eq_zero.mp h)
  simp only [handleCheckout]
  rw [if_neg hlen, if_neg haddr, if_neg (by simp [h0]), if_pos h1]

/-- An exception raised by the stock update of the line at position `j`
(the first raising call) leaves the order and its items in place, the
stock updates of the lines before `j` applied, those from `j` on not
applied, and the cart rows untouched. -/
theorem handleCheckout_failLoop (fails : Nat → Bool) (uid cid : Nat)
    (items : List CartItemView) (addr : String) (now : Nat) (db : DB)
    (hne : items ≠ []) (haddr : jsTrim addr ≠ "")
    (h0 : fails 0 = false) (h1 : fails 1 = false)
    (j : Nat) (hj : j < items.length)
    (hpre : ∀ i, i < j → fails (2 + i) = false) (hfail : fails (2 + j) = true) :
    handleCheckout fails (some uid) (some cid) items addr now db =
      { db with
        products := db.products.map (applyStock (items.take j))
        orders := db.orders ++ [checkoutOrder uid items addr now db]
        orderItems := db.orderItems ++
          items.map (mkOrderItem (checkoutOrder uid items addr now db).id) } := by
  have hlen : ¬ items.length = 0 := fun h => hne (List.length_eq_zero.mp h)
  simp only [handleCheckout, checkoutSteps34]
  rw [if_neg hlen, if_neg haddr, if_neg (by simp [h0]), if_neg (by simp [h1]),
    stockUpdateLoop_failAt fails items j 2 _ hj hpre hfail]

/-- An exception raised by the final cart-items delete (call 2 + number
of lines) leaves everything of steps 1–3 in place and the cart rows
untouched. -/
theorem handleCheckout_failDelete (fails : Nat → Bool) (uid cid : Nat)
    (items : List CartItemView) (addr : String) (now : Nat) (db : DB)
    (hne : items ≠ []) (haddr : jsTrim addr ≠ "")
    (h0 : fails 0 = false) (h1 : fails 1 = false)
    (hloop : ∀ i, i < items.length → fails (2 + i) = false)
    (hdel : fails (2 + items.length) = true) :
    handleCheckout fails (some uid) (some cid) items addr now db =
      { db with
        products := db.products.map (applyStock items)
        orders := db.orders ++ [checkoutOrder uid items addr now db]
        orderItems := db.orderItems ++
          items.map (mkOrderItem (checkoutOrder uid items addr now db).id) } := by
  have hlen : ¬ items.length = 0 := fun h => hne (List.length_eq_zero.mp h)
  simp only [handleCheckout, checkoutSteps34]
  rw [if_neg hlen, if_neg haddr, if_neg (by simp [h0]), if_neg (by simp [h1]),
    stockUpdateLoop_noFail fails items 2 _ hloop]
  simp only [hdel, if_true]

/-- Steps 3 and 4 never touch the orders table. -/
theorem checkoutSteps34_orders (fails : Nat → Bool) (cid : Nat)
    (items : List CartItemView) (db2 : DB) :
    (checkoutSteps34 fails cid items db2).orders = db2.orders := by
  unfold checkoutSteps34
  obtain ⟨ps, b, hps⟩ := stockUpdateLoop_shape fails items 2 db2
  rw [hps]
  cases b
  · by_cases hd : fails (2 + items.length) = true
    · simp [hd]
    · simp [hd]
  · rfl

/-- Whatever the failure oracle does, the orders table after
`handleCheckout` is either untouched or extended with exactly the
checkout order. -/
theorem handleCheckout_orders (fails : Nat → Bool) (user cartId : Option Nat)
    (items : List CartItemView) (addr : String) (now : Nat) (db : DB) :
    (handleCheckout fails user cartId items addr now db).orders = db.orders ∨
    ∃ uid, user = some uid ∧
      (handleCheckout fails user cartId items addr now db).orders =
        db.orders ++ [checkoutOrder uid items addr now db] := by
  cases user with
  | none => exact Or.inl rfl
  | some uid =>
    cases cartId with
    | none => exact Or.inl rfl
    | some cid =>
      simp only [handleCheckout]
      by_cases hlen : items.length = 0
      · rw [if_pos hlen]
        exact Or.inl rfl
      rw [if_neg hlen]
      by_cases haddr : jsTrim addr = ""
      · rw [if_pos haddr]
        exact Or.inl rfl
      rw [if_neg haddr]
      by_cases h0 : fails 0 = true
      · rw [if_pos h0]
        exact Or.inl rfl
      rw [if_neg h0]
      by_cases h1 : fails 1 = true
      · rw [if_pos h1]
        exact Or.inr ⟨uid, rfl, rfl⟩
      rw [if_neg h1]
      exact Or.inr ⟨uid, rfl, by rw [checkoutSteps34_orders]⟩

/-! ## Claims -/

/-- Claim C1: a successful checkout (authenticated user, at least one
cart line, non-blank shipping address, no remote call raising) inserts
one Order row with status "pending" whose total is the sum over cart
lines of price times quantity; inserts one OrderItem per line with
subtotal = price times quantity, so the order total equals the sum of
the inserted items' subtotals; sets each purchased product's stock to
its prior stock minus the purchased quantity (leaving unpurchased
products untouched); and deletes all cart items of the cart while the
cart row itself persists. -/
theorem checkout_C1 (uid cid : Nat) (items : List CartItemView) (addr : String)
    (now : Nat) (db : DB)
    (hne : items ≠ []) (haddr : jsTrim addr ≠ "")
    (hnodup : (items.map CartItemView.productId).Nodup)
    (hcons : ∀ it ∈ items, ∀ p ∈ db.products, p.id = it.productId →
      p.stock = it.productStock) :
    (handleCheckout (fun _ => false) (some uid) (some cid) items addr now db).orders =
        db.orders ++ [checkoutOrder uid items addr now db] ∧
    (checkoutOrder uid items addr now db).status = "pending" ∧
    (checkoutOrder uid items addr now db).total_amount =
        (items.map fun it => it.productPrice * it.quantity).sum ∧
    (handleCheckout (fun _ => false) (some uid) (some cid) items addr now db).orderItems =
        db.orderItems ++ items.map (mkOrderItem (checkoutOrder uid items addr now db).id) ∧
    (∀ it ∈ items, (mkOrderItem (checkoutOrder uid items addr now db).id it).subtotal =
        it.productPrice * it.quantity) ∧
    (checkoutOrder uid items addr now db).total_amount =
        ((items.map (mkOrderItem (checkoutOrder uid items addr now db).id)).map
          OrderItem.subtotal).sum ∧
    (handleCheckout (fun _ => false) (some uid) (some cid) items addr now db).products =
        db.products.map (fun p =>
          match items.find? (fun it => decide (it.productId = p.id)) with
          | some it => { p with stock := p.stock - it.quantity }
          | none => p) ∧
    (handleCheckout (fun _ => false) (some uid) (some cid) items addr now db).cartItems =
        db.cartItems.filter (fun ci => ¬ ci.cart_id = cid) ∧
    (handleCheckout (fun _ => false) (some uid) (some cid) items addr now db).carts =
        db.carts := by
  rw [handleCheckout_success uid cid items addr now db hne haddr]
  refine ⟨rfl, rfl, calculateTotal_eq_sum items, rfl, fun it _ => rfl, ?_, ?_, rfl, rfl⟩
  · rw [List.map_map]
    have he : items.map (OrderItem.subtotal ∘ mkOrderItem (checkoutOrder uid items addr now db).id) =
        items.map fun it => it.productPrice * it.quantity :=
      List.map_congr_left fun a _ => rfl
    rw [he]
    exact calculateTotal_eq_sum items
  · apply List.map_congr_left
    intro p hp
    rw [applyStock_find items p hnodup]
    cases hfind : items.find? fun it => decide (it.productId = p.id) with
    | none => rfl
    | some it =>
        have hmem := List.mem_of_find?_eq_some hfind
        have hpid : it.productId = p.id := by simpa using List.find?_some hfind
        rw [hcons it hmem p hp hpid.symm]

/-- Claim C1 witness: the demo checkout run, instantiating the claim on
closed inputs. -/
theorem checkout_C1_witness :
    (handleCheckout (fun _ => false) (some 7) (some 1) demoItems "Jl. Merdeka 1" 1000
        demoDB).orders =
      demoDB.orders ++ [checkoutOrder 7 demoItems "Jl. Merdeka 1" 1000 demoDB] ∧
    (checkoutOrder 7 demoItems "Jl. Merdeka 1" 1000 demoDB).status = "pending" ∧
    (checkoutOrder 7 demoItems "Jl. Merdeka 1" 1000 demoDB).total_amount =
      (demoItems.map fun it => it.productPrice * it.quantity).sum ∧
    (handleCheckout (fun _ => false) (some 7) (some 1) demoItems "Jl. Merdeka 1" 1000
        demoDB).cartItems =
      demoDB.cartItems.filter (fun ci => ¬ ci.cart_id = 1) ∧
    (handleCheckout (fun _ => false) (some 7) (some 1) demoItems "Jl. Merdeka 1" 1000
        demoDB).carts = demoDB.carts := by
  have h := checkout_C1 7 1 demoItems "Jl. Merdeka 1" 1000 demoDB
    (by decide) (by decide) (by decide) (by decide)
  exact ⟨h.1, h.2.1, h.2.2.1, h.2.2.2.2.2.2.2.1, h.2.2.2.2.2.2.2.2⟩

/-- Claim C2: an exception raised during the four-step checkout
sequence aborts all remaining steps and nothing already committed is
rolled back: a raising order insert leaves the state unchanged; a
raising order-items insert leaves the inserted order in place with no
stock decremented and the cart intact; a raising stock update at loop
position j leaves the order and its items in place with exactly the
first j lines' stocks decremented and the rest untouched; a raising
cart delete leaves everything of steps 1–3 in place and the cart
intact. -/
theorem checkout_C2 (fails : Nat → Bool) (uid cid : Nat) (items : List CartItemView)
    (addr : String) (now : Nat) (db : DB)
    (hne : items ≠ []) (haddr : jsTrim addr ≠ "") :
    (fails 0 = true →
      handleCheckout fails (some uid) (some cid) items addr now db = db) ∧
    (fails 0 = false → fails 1 = true →
      handleCheckout fails (some uid) (some cid) items addr now db =
        { db with orders := db.orders ++ [checkoutOrder uid items addr now db] }) ∧
    (∀ j, j < items.length → fails 0 = false → fails 1 = false →
      (∀ i, i < j → fails (2 + i) = false) → fails (2 + j) = true →
      handleCheckout fails (some uid) (some cid) items addr now db =
        { db with
          products := db.products.map (applyStock (items.take j))
          orders := db.orders ++ [checkoutOrder uid items addr now db]
          orderItems := db.orderItems ++
            items.map (mkOrderItem (checkoutOrder uid items addr now db).id) }) ∧
    (fails 0 = false → fails 1 = false →
      (∀ i, i < items.length → fails (2 + i) = false) →
      fails (2 + items.length) = true →
      handleCheckout fails (some uid) (some cid) items addr now db =
        { db with
          products := db.products.map (applyStock items)
          orders := db.orders ++ [checkoutOrder uid items addr now db]
          orderItems := db.orderItems ++
            items.map (mkOrderItem (checkoutOrder uid items addr now db).id) }) := by
  have hlen : ¬ items.length = 0 := fun h => hne (List.length_eq_zero.mp h)
  refine ⟨?_, ?_, ?_, ?_⟩
  · intro h0
    simp only [handleCheckout]
    rw [if_neg hlen, if_neg haddr, if_pos h0]
  · exact fun h0 h1 =>
      handleCheckout_fail1 fails uid cid items addr now db hne haddr h0 h1
  · exact fun j hj h0 h1 hpre hfail =>
      handleCheckout_failLoop fails uid cid items addr now db hne haddr h0 h1 j hj hpre hfail
  · exact fun h0 h1 hloop hdel =>
      handleCheckout_failDelete fails uid cid items addr now db hne haddr h0 h1 hloop hdel

/-- Claim C2 witness: on the two-line demo cart, a raising order-items
insert (call 1) leaves only the order row; a raising second stock
update (call 3) leaves the first line decremented and the second not,
with the cart rows still present. -/
theorem checkout_C2_witness :
    handleCheckout (fun n => n == 1) (some 7) (some 1) demoItems "Jl. Merdeka 1" 1000 demoDB =
      { demoDB with
        orders := demoDB.orders ++ [checkoutOrder 7 demoItems "Jl. Merdeka 1" 1000 demoDB] } ∧
    handleCheckout (fun n => n == 3) (some 7) (some 1) demoItems "Jl. Merdeka 1" 1000 demoDB =
      { demoDB with
        products := demoDB.products.map (applyStock (demoItems.take 1))
        orders := demoDB.orders ++ [checkoutOrder 7 demoItems "Jl. Merdeka 1" 1000 demoDB]
        orderItems := demoDB.orderItems ++
          demoItems.map (mkOrderItem (checkoutOrder 7 demoItems "Jl. Merdeka 1" 1000 demoDB).id) } := by
  constructor
  · exact (checkout_C2 (fun n => n == 1) 7 1 demoItems "Jl. Merdeka 1" 1000 demoDB
      (by decide) (by decide)).2.1 rfl rfl
  · exact (checkout_C2 (fun n => n == 3) 7 1 demoItems "Jl. Merdeka 1" 1000 demoDB
      (by decide) (by decide)).2.2.1 1 (by decide) rfl rfl (by decide) rfl

/-- Claim C3: a checkout invocation whose shipping address trims to the
empty string (empty or whitespace-only) performs no remote write at
all: the backend state is returned unchanged, so no order is created
and no product stock is mutated. -/
theorem checkout_C3 (fails : Nat → Bool) (user cartId : Option Nat)
    (items : List CartItemView) (addr : String) (now : Nat) (db : DB)
    (haddr : jsTrim addr = "") :
    handleCheckout fails user cartId items addr now db = db := by
  cases user with
  | none => rfl
  | some uid =>
    cases cartId with
    | none => rfl
    | some cid =>
      simp only [handleCheckout]
      by_cases hlen : items.length = 0
      · rw [if_pos hlen]
      · rw [if_neg hlen, if_pos haddr]

/-- Claim C3 witness: a concrete run with a whitespace-only address
leaves the demo state untouched. -/
theorem checkout_C3_witness :
    handleCheckout (fun _ => false) (some 7) (some 1) demoItems "   " 1000 demoDB = demoDB :=
  checkout_C3 (fun _ => false) (some 7) (some 1) demoItems "   " 1000 demoDB (by decide)

/-- Claim C4: a checkout invocation on an empty cart (no cart lines)
performs no remote write: the backend state is returned unchanged, so
no order is created. -/
theorem checkout_C4 (fails : Nat → Bool) (user cartId : Option Nat)
    (addr : String) (now : Nat) (db : DB) :
    handleCheckout fails user cartId [] addr now db = db := by
  cases user with
  | none => rfl
  | some uid =>
    cases cartId with
    | none => rfl
    | some cid => simp [handleCheckout]

/-- Claim C5: every product returned by the catalog fetch has positive
stock, its name matches the search text case-insensitively when one is
given, and it belongs to the selected category when one is selected;
the returned list is sorted by popularity descending then name
ascending and is a permutation of the filtered products table; and the
fetch leaves the backend state unchanged (pure read). -/
theorem fetch_C5 (q : String) (c : Option Nat) (db : DB) :
    (∀ p ∈ (fetchProducts q c db).1, 0 < p.stock) ∧
    (∀ p ∈ (fetchProducts q c db).1, q ≠ "" → iLike p.name q = true) ∧
    (∀ p ∈ (fetchProducts q c db).1, ∀ cid, c = some cid → p.category_id = some cid) ∧
    List.Sorted productLe (fetchProducts q c db).1 ∧
    ((fetchProducts q c db).1).Perm (db.products.filter (productFilter q c)) ∧
    (fetchProducts q c db).2 = db := by
  have hmem : ∀ p ∈ (fetchProducts q c db).1, productFilter q c p = true := by
    intro p hp
    have hp' : p ∈ db.products.filter (productFilter q c) :=
      (List.mem_insertionSort productLe).mp hp
    exact (List.mem_filter.mp hp').2
  refine ⟨?_, ?_, ?_, ?_, ?_, rfl⟩
  · intro p hp
    have h := hmem p hp
    simp only [productFilter, Bool.and_eq_true, decide_eq_true_eq] at h
    exact h.1.1
  · intro p hp hq
    have h := hmem p hp
    simp only [productFilter, Bool.and_eq_true, decide_eq_true_eq] at h
    have h3 := h.2
    rw [if_neg hq] at h3
    exact h3
  · intro p hp cid hc
    subst hc
    have h := hmem p hp
    simp only [productFilter, Bool.and_eq_true, decide_eq_true_eq] at h
    exact h.1.2
  · exact List.sorted_insertionSort productLe _
  · exact List.perm_insertionSort productLe _

/-- Claim C5 witness: on the demo products, searching "para" in
category 5 returns only in-stock, matching, category-5 rows, and the
state is untouched. -/
theorem fetch_C5_witness :
    pParacetamol ∈ (fetchProducts "para" (some 5) demoDB).1 ∧
    0 < pParacetamol.stock ∧
    iLike pParacetamol.name "para" = true ∧
    pParacetamol.category_id = some 5 ∧
    (fetchProducts "para" (some 5) demoDB).2 = demoDB := by
  have hm : pParacetamol ∈ (fetchProducts "para" (some 5) demoDB).1 := by decide
  have h := fetch_C5 "para" (some 5) demoDB
  exact ⟨hm, h.1 _ hm, h.2.1 _ hm (by decide), h.2.2.1 _ hm 5 rfl, h.2.2.2.2.2⟩

/-- Claim C6: a cart-quantity update with a value below 1 is rejected
before any write is issued — the state (and so the prior quantity) is
unchanged; with a value of 1 or more the matching row's quantity is set
to the new value and nothing else changes. -/
theorem updateQuantity_C6 (itemId : Nat) (newQuantity : Int) (db : DB) :
    (newQuantity < 1 → updateQuantity itemId newQuantity db = db) ∧
    (1 ≤ newQuantity →
      (updateQuantity itemId newQuantity db).cartItems.length = db.cartItems.length ∧
      (∀ ci ∈ db.cartItems, ci.id = itemId →
        { ci with quantity := newQuantity } ∈
          (updateQuantity itemId newQuantity db).cartItems) ∧
      (∀ ci ∈ db.cartItems, ¬ ci.id = itemId →
        ci ∈ (updateQuantity itemId newQuantity db).cartItems) ∧
      (updateQuantity itemId newQuantity db).products = db.products ∧
      (updateQuantity itemId newQuantity db).carts = db.carts ∧
      (updateQuantity itemId newQuantity db).orders = db.orders ∧
      (updateQuantity itemId newQuantity db).orderItems = db.orderItems) := by
  constructor
  · intro h
    unfold updateQuantity
    rw [if_pos h]
  · intro h
    have hn : ¬ newQuantity < 1 := not_lt.mpr h
    unfold updateQuantity
    rw [if_neg hn]
    refine ⟨List.length_map _ _, ?_, ?_, rfl, rfl, rfl, rfl⟩
    · intro ci hci hid
      have hmem := List.mem_map_of_mem
        (fun x : CartItem => if x.id = itemId then { x with quantity := newQuantity } else x) hci
      simp only [if_pos hid] at hmem
      exact hmem
    · intro ci hci hid
      have hmem := List.mem_map_of_mem
        (fun x : CartItem => if x.id = itemId then { x with quantity := newQuantity } else x) hci
      simp only [if_neg hid] at hmem
      exact hmem

/-- Claim C6 witness: updating row 3 to 0 is a no-op on the demo state;
updating it to 5 yields the row with quantity 5. -/
theorem updateQuantity_C6_witness :
    updateQuantity 3 0 demoDB = demoDB ∧
    ({ id := 3, cart_id := 1, product_id := 10, quantity := 5 } : CartItem) ∈
      (updateQuantity 3 5 demoDB).cartItems := by
  constructor
  · exact (updateQuantity_C6 3 0 demoDB).1 (by decide)
  · exact ((updateQuantity_C6 3 5 demoDB).2 (by decide)).2.1
      { id := 3, cart_id := 1, product_id := 10, quantity := 2 } (by decide) rfl

/-- Claim C7 counterexample: the claim's "no other field changes" fails
on the code.  Setting demoOrder's status from "pending" to "shipped" at
time 1000 produces a row that differs from the old row with only the
status replaced: the `update_orders_updated_at` trigger also moves
`updated_at` from 900 to 1000. -/
theorem updateOrderStatus_C7_counterexample :
    (updateOrderStatus 1 "shipped" 1000 demoDB).orders ≠
      [{ demoOrder with status := "shipped" }] ∧
    (updateOrderStatus 1 "shipped" 1000 demoDB).orders =
      [{ demoOrder with status := "shipped", updated_at := 1000 }] := by
  constructor
  · decide
  · decide

/-- Claim C7 (amended): when an admin updates an order's status to one
of the six enumerated values, the matching order's status equals the
chosen value afterwards and every field other than status and
`updated_at` is unchanged; `updated_at` is set to the update time by
the `update_orders_updated_at` database trigger.  No transition-
validity check is performed: this holds whatever the prior status
was. -/
theorem updateOrderStatus_C7 (orderId : Nat) (status : String) (now : Nat) (db : DB)
    (hs : status ∈ orderStatuses) :
    (updateOrderStatus orderId status now db).orders.length = db.orders.length ∧
    (∀ o ∈ db.orders, o.id = orderId →
      { o with status := status, updated_at := now } ∈
        (updateOrderStatus orderId status now db).orders) ∧
    (∀ o ∈ db.orders, ¬ o.id = orderId →
      o ∈ (updateOrderStatus orderId status now db).orders) ∧
    (∀ o' ∈ (updateOrderStatus orderId status now db).orders, ∃ o ∈ db.orders,
      o'.id = o.id ∧ o'.user_id = o.user_id ∧ o'.order_number = o.order_number ∧
      o'.total_amount = o.total_amount ∧ o'.payment_method = o.payment_method ∧
      o'.shipping_address = o.shipping_address ∧ o'.created_at = o.created_at ∧
      o'.status = (if o.id = orderId then status else o.status) ∧
      o'.updated_at = (if o.id = orderId then now else o.updated_at)) ∧
    (updateOrderStatus orderId status now db).products = db.products ∧
    (updateOrderStatus orderId status now db).carts = db.carts ∧
    (updateOrderStatus orderId status now db).cartItems = db.cartItems ∧
    (updateOrderStatus orderId status now db).orderItems = db.orderItems := by
  unfold updateOrderStatus
  refine ⟨List.length_map _ _, ?_, ?_, ?_, rfl, rfl, rfl, rfl⟩
  · intro o ho hid
    have hmem := List.mem_map_of_mem
      (fun x : Order => if x.id = orderId then { x with status := status, updated_at := now }
        else x) ho
    simp only [if_pos hid] at hmem
    exact hmem
  · intro o ho hid
    have hmem := List.mem_map_of_mem
      (fun x : Order => if x.id = orderId then { x with status := status, updated_at := now }
        else x) ho
    simp only [if_neg hid] at hmem
    exact hmem
  · intro o' ho'
    obtain ⟨o, ho, rfl⟩ := List.mem_map.mp ho'
    refine ⟨o, ho, ?_⟩
    by_cases hid : o.id = orderId
    · simp [hid]
    · simp [hid]

/-- Claim C7 witness: the amended claim on the demo order, status set
to "shipped" at time 1000. -/
theorem updateOrderStatus_C7_witness :
    (updateOrderStatus 1 "shipped" 1000 demoDB).orders.length = demoDB.orders.length ∧
    { demoOrder with status := "shipped", updated_at := 1000 } ∈
      (updateOrderStatus 1 "shipped" 1000 demoDB).orders ∧
    (updateOrderStatus 1 "shipped" 1000 demoDB).products = demoDB.products := by
  have h := updateOrderStatus_C7 1 "shipped" 1000 demoDB (by decide)
  exact ⟨h.1, h.2.1 demoOrder (by decide) rfl, h.2.2.2.2.1⟩

/-- Claim C8: invoice generation is a pure function of the
already-fetched order record: its text does not depend on the clock or
on the backend state (so two invocations on the same record produce
byte-identical output), it issues no backend request, and it leaves the
backend state unchanged. -/
theorem invoice_C8 (o : OrderView) (now₁ now₂ : Nat) (db₁ db₂ : DB) :
    (downloadInvoice o now₁ db₁).1.text = (downloadInvoice o now₂ db₂).1.text ∧
    (downloadInvoice o now₁ db₁).1.text = invoiceContent o ∧
    (downloadInvoice o now₁ db₁).1.serverCalls = [] ∧
    (downloadInvoice o now₁ db₁).2 = db₁ :=
  ⟨rfl, rfl, rfl, rfl⟩

/-- Claim C9: when the user's cart already holds a line for the chosen
product, add-to-cart updates that line's quantity to the old quantity
plus the requested one and inserts no new row; otherwise it appends
exactly one new line with the requested quantity.  Either way, the
at-most-one-line-per-(cart, product) invariant is preserved. -/
theorem addToCart_C9 (uid : Nat) (prod : Product) (q : Int) (db : DB)
    (hpair : db.cartItems.Pairwise distinctPair) :
    (addToCart (some uid) (some prod) q db).cartItems.Pairwise distinctPair ∧
    (match db.cartItems.find? (fun ci => decide (ci.cart_id = cartIdFor db uid) &&
        decide (ci.product_id = prod.id)) with
     | some ex =>
        (addToCart (some uid) (some prod) q db).cartItems =
          db.cartItems.map (fun ci =>
            if ci.id = ex.id then { ci with quantity := ex.quantity + q } else ci) ∧
        (addToCart (some uid) (some prod) q db).cartItems.length =
          db.cartItems.length ∧
        { ex with quantity := ex.quantity + q } ∈
          (addToCart (some uid) (some prod) q db).cartItems
     | none =>
        (addToCart (some uid) (some prod) q db).cartItems =
          db.cartItems ++
            [{ id := freshId (db.cartItems.map CartItem.id)
               cart_id := cartIdFor db uid
               product_id := prod.id
               quantity := q }]) := by
  cases hfind : db.cartItems.find? (fun ci => decide (ci.cart_id = cartIdFor db uid) &&
      decide (ci.product_id = prod.id)) with
  | some ex =>
      have hbody : (addToCart (some uid) (some prod) q db).cartItems =
          db.cartItems.map (fun ci =>
            if ci.id = ex.id then { ci with quantity := ex.quantity + q } else ci) := by
        simp only [addToCart]
        rw [show ({ db with carts := cartsAfterEnsure db uid } : DB).cartItems =
          db.cartItems from rfl, hfind]
      refine ⟨?_, hbody, hbody ▸ List.length_map _ _, ?_⟩
      · rw [hbody, List.pairwise_map]
        refine hpair.imp ?_
        intro a b hab
        unfold distinctPair at hab ⊢
        by_cases ha : a.id = ex.id <;> by_cases hb : b.id = ex.id <;>
          simp [ha, hb] <;> simpa using hab
      · rw [hbody]
        have hmem := List.mem_map_of_mem
          (fun ci : CartItem =>
            if ci.id = ex.id then { ci with quantity := ex.quantity + q } else ci)
          (List.mem_of_find?_eq_some hfind)
        simp only [if_pos] at hmem
        exact hmem
  | none =>
      have hbody : (addToCart (some uid) (some prod) q db).cartItems =
          db.cartItems ++
            [{ id := freshId (db.cartItems.map CartItem.id)
               cart_id := cartIdFor db uid
               product_id := prod.id
               quantity := q }] := by
        simp only [addToCart]
        rw [show ({ db with carts := cartsAfterEnsure db uid } : DB).cartItems =
          db.cartItems from rfl, hfind]
      refine ⟨?_, hbody⟩
      rw [hbody, List.pairwise_append]
      refine ⟨hpair, List.pairwise_singleton _ _, ?_⟩
      intro a ha b hb
      rw [List.mem_singleton] at hb
      subst hb
      unfold distinctPair
      intro hcol
      have hnone := List.find?_eq_none.mp hfind a ha
      simp only [Bool.and_eq_true, decide_eq_true_eq, not_and] at hnone
      exact hnone hcol.1 hcol.2

/-- Claim C9 witness: adding 4 more Paracetamol to the demo cart (which
already holds 2) rewrites the existing line to quantity 6 and keeps the
per-(cart, product) uniqueness. -/
theorem addToCart_C9_witness :
    (addToCart (some 7) (some pParacetamol) 4 demoDB).cartItems =
      [{ id := 3, cart_id := 1, product_id := 10, quantity := 6 },
       { id := 4, cart_id := 1, product_id := 11, quantity := 1 }] ∧
    (addToCart (some 7) (some pParacetamol) 4 demoDB).cartItems.Pairwise distinctPair := by
  have h := addToCart_C9 7 pParacetamol 4 demoDB (by decide)
  have h2 := h.2
  exact ⟨h2.1.trans (by decide), h.1⟩

/-- Claim C10: every order row a checkout run creates (whatever the
failure oracle does) carries payment method "cash" — `handleCheckout`
offers no payment-method input — and the order number "WM" followed by
the `Date.now()` timestamp. -/
theorem checkout_C10 (fails : Nat → Bool) (user cartId : Option Nat)
    (items : List CartItemView) (addr : String) (now : Nat) (db : DB) :
    ∀ o ∈ (handleCheckout fails user cartId items addr now db).orders,
      o ∉ db.orders →
      o.payment_method = "cash" ∧ o.order_number = "WM" ++ toString now := by
  intro o ho hno
  rcases handleCheckout_orders fails user cartId items addr now db with h | ⟨uid, _, h⟩
  · rw [h] at ho
    exact absurd ho hno
  · rw [h] at ho
    rcases List.mem_append.mp ho with h' | h'
    · exact absurd h' hno
    · have := List.mem_singleton.mp h'
      subst this
      exact ⟨rfl, rfl⟩

/-- Claim C10 witness: the order created by the demo checkout run at
time 1000 has payment method "cash" and order number "WM1000". -/
theorem checkout_C10_witness :
    (checkoutOrder 7 demoItems "Jl. Merdeka 1" 1000 demoDB).payment_method = "cash" ∧
    (checkoutOrder 7 demoItems "Jl. Merdeka 1" 1000 demoDB).order_number = "WM1000" :=
  checkout_C10 (fun _ => false) (some 7) (some 1) demoItems "Jl. Merdeka 1" 1000 demoDB
    (checkoutOrder 7 demoItems "Jl. Merdeka 1" 1000 demoDB) (by decide) (by decide)

end WarungApotek
